import Mathlib

/-
Verification development for the irtlab/lost LoST server (RFC 5222).

The Python sources under lost/ are shallowly embedded as executable Lean
definitions.  XML documents are modeled by the nested inductive XmlElem;
lxml.objectify attribute access becomes first-child lookup by qualified
tag.  PostGIS is an external collaborator of the repository; its spatial
functions are modeled by their documented contracts on the concrete
geometry type Geom (points, axis-aligned rectangles and geometry
collections), which is all the engine code observes through the shape
store facade.  Database tables are lists of rows together with the serial
id counters.  Side effects (the peer HTTP POST performed while proxying)
are returned explicitly in the outcome of a handler.
-/

set_option maxRecDepth 8000
set_option maxHeartbeats 1000000
namespace LoST

/- Constants from lost/__init__.py.  Note that the package binds the MIME
type to the name MIME_TYPE. -/

def MIME_TYPE : String := "application/lost+xml"

def LOST_NAMESPACE : String := "urn:ietf:params:xml:ns:lost1"

def GML_NAMESPACE : String := "http://www.opengis.net/gml"

def XML_NAMESPACE : String := "http://www.w3.org/XML/1998/namespace"

def SRS_URN : String := "urn:ogc:def:crs:EPSG::4326"

/-- Qualified XML tag in Clark notation, as lxml uses it. -/
def qn (ns local_ : String) : String := "\x7b" ++ ns ++ "\x7d" ++ local_

/-- XML element tree: tag in Clark notation, attributes in document
order, optional text content, child elements.  The GML payload of a
serviceBoundary is carried as text (see serviceBoundary below). -/
inductive XmlElem : Type where
  | mk (tag : String) (attrs : List (String × String)) (text : Option String)
       (children : List XmlElem)

def XmlElem.tag : XmlElem → String
  | .mk t _ _ _ => t

def XmlElem.attrs : XmlElem → List (String × String)
  | .mk _ a _ _ => a

def XmlElem.text : XmlElem → Option String
  | .mk _ _ x _ => x

def XmlElem.children : XmlElem → List XmlElem
  | .mk _ _ _ c => c

/-- First child with the given qualified tag; models lxml.objectify
attribute access on an element (which yields the first matching child and
raises AttributeError when there is none). -/
def childNamed (e : XmlElem) (t : String) : Option XmlElem :=
  e.children.find? (fun c => c.tag == t)

/-- Attribute lookup; models element.attrib.get(key). -/
def attrVal (e : XmlElem) (k : String) : Option String :=
  (e.attrs.find? (fun a => a.1 == k)).map (fun a => a.2)

/-- Python string slicing s[n:], by characters. -/
def sliceFrom (s : String) (n : Nat) : String := String.mk (s.data.drop n)

/-- Python len() of a string, in characters. -/
def pyLen (s : String) : Nat := s.data.length

/-- Python str.strip(): drop leading and trailing whitespace. -/
def pyStrip (s : String) : String :=
  String.mk
    (((s.data.dropWhile Char.isWhitespace).reverse.dropWhile
        Char.isWhitespace).reverse)

def splitWsAux : List Char → List Char → List String
  | [], acc => if acc.isEmpty then [] else [String.mk acc.reverse]
  | c :: rest, acc =>
    if c.isWhitespace then
      (if acc.isEmpty then [] else [String.mk acc.reverse]) ++ splitWsAux rest []
    else splitWsAux rest (c :: acc)

/-- Python str.split() with no argument: split on runs of whitespace and
drop empty tokens. -/
def splitWs (s : String) : List String := splitWsAux s.data []

def digitVal (c : Char) : Option Nat :=
  if c.isDigit then some (c.toNat - 48) else none

def parseDigits (cs : List Char) : Option Nat :=
  cs.foldl
    (fun acc c =>
      match acc, digitVal c with
      | some n, some d => some (10 * n + d)
      | _, _ => none)
    (some 0)

/-- An exact decimal number m / 10 ^ e; coordinates are compared by
cross multiplication, so no normalization is ever needed. -/
structure Dec : Type where
  m : Int
  e : Nat
deriving DecidableEq, Repr

def Dec.lt (a b : Dec) : Bool := decide (a.m * 10 ^ b.e < b.m * 10 ^ a.e)

def Dec.le (a b : Dec) : Bool := decide (a.m * 10 ^ b.e ≤ b.m * 10 ^ a.e)

def Dec.eqv (a b : Dec) : Bool := a.m * 10 ^ b.e == b.m * 10 ^ a.e

/-- The decimal of an integer. -/
def intDec (n : Int) : Dec := ⟨n, 0⟩

/-- Decimal numeral parser; models how PostGIS reads a coordinate token
inside WKT text such as Point(-73.5 40.5).  Returns none on malformed
tokens, which at the database level surfaces as a raised database
error. -/
def parseDec (s : String) : Option Dec :=
  let cs := s.data
  let sign : Int := if cs.head? = some '-' then -1 else 1
  let cs := if cs.head? = some '-' then cs.drop 1 else cs
  let intPart := cs.takeWhile (fun c => c != '.')
  let rest := cs.dropWhile (fun c => c != '.')
  match rest with
  | [] =>
    if intPart.isEmpty then none
    else (parseDigits intPart).map (fun n => ⟨sign * n, 0⟩)
  | _ :: frac =>
    if intPart.isEmpty || frac.isEmpty then none
    else
      match parseDigits intPart, parseDigits frac with
      | some i, some f =>
        some ⟨sign * (i * 10 ^ frac.length + f), frac.length⟩
      | _, _ => none

/- Geometry.  The repository stores geometries in PostGIS and only
observes them through ST_Contains / ST_Intersects / ST_Equals /
ST_AsGML.  We model the store-native geometry by points, axis-aligned
rectangles (lon interval times lat interval) and collections, which is
enough to express every test scenario of the specification, and give the
PostGIS predicates their documented meaning on this type. -/

inductive Geom : Type where
  | pt (x y : Dec)
  | rect (x1 y1 x2 y2 : Dec)
  | coll (g : Geom)
deriving DecidableEq, Repr

/-- A point in store order (lon, lat), as produced by ST_GeomFromText of
a WKT Point(lon lat). -/
def Pt : Type := Dec × Dec

/-- Documented contract of ST_Contains restricted to our geometries: a
rectangle contains the points of its interior, a point only itself, and
a collection contains what its member contains. -/
def stContains : Geom → Pt → Bool
  | .pt x y, p => Dec.eqv x p.1 && Dec.eqv y p.2
  | .rect x1 y1 x2 y2, p =>
    Dec.lt x1 p.1 && Dec.lt p.1 x2 && Dec.lt y1 p.2 && Dec.lt p.2 y2
  | .coll g, p => stContains g p

/-- Strip collection wrappers; the GEOS predicates see the point set, so
ST_ForceCollection is invisible to them. -/
def stripColl : Geom → Geom
  | .coll g => stripColl g
  | g => g

/-- Closed-set intersection test between two of our geometries, the
documented meaning of ST_Intersects; collection wrappers are stripped
first, so the remaining cases are point against rectangle (the final
catch-all rows are unreachable because stripColl never returns a
collection). -/
def stIntersects (a b : Geom) : Bool :=
  match stripColl a, stripColl b with
  | .pt x y, .pt c d => Dec.eqv x c && Dec.eqv y d
  | .pt x y, .rect x1 y1 x2 y2 =>
    Dec.le x1 x && Dec.le x x2 && Dec.le y1 y && Dec.le y y2
  | .rect x1 y1 x2 y2, .pt x y =>
    Dec.le x1 x && Dec.le x x2 && Dec.le y1 y && Dec.le y y2
  | .rect a1 b1 a2 b2, .rect c1 d1 c2 d2 =>
    Dec.le a1 c2 && Dec.le c1 a2 && Dec.le b1 d2 && Dec.le d1 b2
  | _, _ => false

/-- Documented contract of ST_Equals (spatial equality) on our
geometries: equality of the underlying shapes, ignoring collection
wrapping. -/
def sEquals (a b : Geom) : Bool := stripColl a == stripColl b

/-- ST_ForceCollection as used by the loader insert. -/
def forceCollection (g : Geom) : Geom := .coll g

/-- Opaque rendering of a stored geometry, modeling the GML-3 text
produced by ST_AsGML(3, shape, 5, 17). -/
def asGml : Geom → String
  | .pt x y => "gml:Point " ++ toString x.m ++ "e-" ++ toString x.e ++ " " ++
      toString y.m ++ "e-" ++ toString y.e
  | .rect x1 y1 x2 y2 =>
    "gml:Polygon " ++ toString x1.m ++ "e-" ++ toString x1.e ++ " " ++
      toString y1.m ++ "e-" ++ toString y1.e ++ " " ++
      toString x2.m ++ "e-" ++ toString x2.e ++ " " ++
      toString y2.m ++ "e-" ++ toString y2.e
  | .coll g => "gml:MultiGeometry " ++ asGml g

/-- Documented contract of ST_GeomFromGML on the GML fragments this
development encodes: a gml:Point with a two-token gml:pos, or a
gml:Polygon whose exterior LinearRing posList carries the two corners of
an axis-aligned rectangle.  Anything else fails, which at the database
level surfaces as a raised database error. -/
def parseGmlGeom (e : XmlElem) : Option Geom :=
  if e.tag == qn GML_NAMESPACE "Point" then
    match childNamed e (qn GML_NAMESPACE "pos") with
    | none => none
    | some pos =>
      match splitWs (pyStrip (pos.text.getD "")) with
      | [a, b] =>
        match parseDec a, parseDec b with
        | some x, some y => some (.pt x y)
        | _, _ => none
      | _ => none
  else if e.tag == qn GML_NAMESPACE "Polygon" then
    match childNamed e (qn GML_NAMESPACE "exterior") with
    | none => none
    | some ext =>
      match childNamed ext (qn GML_NAMESPACE "LinearRing") with
      | none => none
      | some ring =>
        match childNamed ring (qn GML_NAMESPACE "posList") with
        | none => none
        | some pl =>
          match splitWs (pyStrip (pl.text.getD "")) with
          | [a, b, c, d] =>
            match parseDec a, parseDec b, parseDec c, parseDec d with
            | some x1, some y1, some x2, some y2 => some (.rect x1 y1 x2 y2)
            | _, _, _, _ => none
          | _ => none
  else none

/- Data model: the shape and mapping tables (abstract schema of section 6
of the specification), with the serial id sequences modeled as counters.
A JSONB attrs value of a mapping row may hold uri as a single string or
as a list of strings; Python iteration over a string yields its
characters, which pyIterUri reproduces. -/

inductive AttrsUri : Type where
  | str (s : String)
  | list (l : List String)
deriving DecidableEq, Repr

/-- Python iteration over the attrs uri value: iterating a list yields
its elements, iterating a string yields its one-character substrings. -/
def pyIterUri : AttrsUri → List String
  | .str s => s.data.map (fun c => String.mk [c])
  | .list l => l

/-- Attribute bag of a mapping row (the keys the engine reads). -/
structure MAttrs : Type where
  uri : Option AttrsUri
  displayName : Option String
deriving DecidableEq, Repr

/-- Attribute bag of a shape produced by osm.extract_boundary and passed
to the loader: an optional uri plus the timestamp; the remaining keys
(id, country, state, name) do not influence control flow and are kept as
one opaque field. -/
structure SAttrs : Type where
  uri : Option String
  timestamp : String
  rest : List (String × String)
deriving DecidableEq, Repr

/-- A row of the shape table. -/
structure Shape : Type where
  id : Nat
  uri : String
  geom : Geom
  updated : String
  attrs : SAttrs
deriving DecidableEq, Repr

/-- A row of the server.mapping table. -/
structure MRow : Type where
  id : Nat
  srv : Option String
  shape : Option Nat
  updated : String
  attrs : MAttrs
deriving DecidableEq, Repr

/-- The database state: both tables plus their id sequences and the
source of fresh GUID strings drawn by the loader. -/
structure DB : Type where
  shapes : List Shape
  mappings : List MRow
  nextShapeId : Nat
  nextMappingId : Nat
  guidCtr : Nat
deriving DecidableEq, Repr

/-- A row of the join performed by the findService and findIntersect
queries: SELECT m.id, m.srv, m.updated, m.attrs, ST_AsGML(3,
s.geometries, 5, 17) FROM server.mapping m JOIN shape s ON m.shape=s.id. -/
structure QRow : Type where
  id : Nat
  srv : Option String
  updated : String
  attrs : MAttrs
  gml : String
deriving DecidableEq, Repr

/-- SQL equality m.srv = service with NULL semantics: NULL never equals
anything. -/
def srvMatches (rowSrv service : Option String) : Bool :=
  match rowSrv, service with
  | some a, some b => a == b
  | _, _ => false

def joinShape (d : DB) (m : MRow) : Option Shape :=
  d.shapes.find? (fun s => m.shape == some s.id)

/-- The first findService query: mapping rows joined with their shape,
filtered by ST_Contains(s.geometries, point) and m.srv = service, in
table order. -/
def fsQuery (d : DB) (p : Pt) (service : Option String) : List QRow :=
  d.mappings.filterMap (fun m =>
    if srvMatches m.srv service then
      match joinShape d m with
      | some s =>
        if stContains s.geom p then
          some ⟨m.id, m.srv, m.updated, m.attrs, asGml s.geom⟩
        else none
      | none => none
    else none)

/-- The second findService query: same join and containment filter but
with no service filter. -/
def fsQueryAll (d : DB) (p : Pt) : List QRow :=
  d.mappings.filterMap (fun m =>
    match joinShape d m with
    | some s =>
      if stContains s.geom p then
        some ⟨m.id, m.srv, m.updated, m.attrs, asGml s.geom⟩
      else none
    | none => none)

/-- The findIntersect query: join filtered by
ST_Intersects(s.geometries, g) and m.srv = service. -/
def fiQuery (d : DB) (g : Geom) (service : Option String) : List QRow :=
  d.mappings.filterMap (fun m =>
    if srvMatches m.srv service then
      match joinShape d m with
      | some s =>
        if stIntersects s.geom g then
          some ⟨m.id, m.srv, m.updated, m.attrs, asGml s.geom⟩
        else none
      | none => none
    else none)

/- Error taxonomy, lost/errors.py. -/

/-- The classes defined in lost/errors.py, listed as
(class name, base class name, type attribute) in the alphabetical order
produced by inspect.getmembers. -/
def errorClassTable : List (String × String × String) :=
  [("BadRequest", "LoSTError", "badRequest"),
   ("Forbidden", "LoSTError", "forbidden"),
   ("GeometryNotImplemented", "NotImplemented", "geometryNotImplemented"),
   ("InternalError", "LoSTError", "internalError"),
   ("LoSTError", "Exception", "error"),
   ("LocationInvalid", "LoSTError", "locationInvalid"),
   ("LocationProfileUnrecognized", "LoSTError", "locationProfileUnrecognized"),
   ("Loop", "LoSTError", "loop"),
   ("NotAuthoritative", "LoSTError", "notAuthoritative"),
   ("NotFound", "LoSTError", "notFound"),
   ("NotImplemented", "LoSTError", "notImplemented"),
   ("SRSInvalid", "LoSTError", "SRSInvalid"),
   ("ServerError", "LoSTError", "serverError"),
   ("ServerTimeout", "LoSTError", "serverTimeout"),
   ("ServiceNotImplemented", "NotImplemented", "serviceNotImplemented")]

/-- LoSTError.to_xml: the errors envelope with one child named by the
error type, carrying message (when present), source (when present) and
xml:lang="en", in that attribute order. -/
def toXmlError (type_ : String) (message source : Option String) : XmlElem :=
  XmlElem.mk (qn LOST_NAMESPACE "errors") [] none
    [XmlElem.mk type_
      ((match message with
        | some m => [("message", m)]
        | none => []) ++
       (match source with
        | some s => [("source", s)]
        | none => []) ++
       [(qn XML_NAMESPACE "lang", "en")])
      none []]

/-- Result of LoSTError.raise_for_errors: either no exception (the
document is not an errors envelope), a typed LoSTError subclass, the
generic LoSTError fallback, or a plain Python exception (empty errors
element). -/
inductive RaiseOutcome : Type where
  | noRaise
  | typed (clsName : String) (msg : Option String)
  | generic (msg : Option String)
  | pyexn (kind : String)
deriving DecidableEq, Repr

/-- LoSTError.raise_for_errors: scan the module classes in alphabetical
order and raise the first whose immediate base is LoSTError and whose
type attribute equals the local name of the first child of the errors
element; fall back to the generic LoSTError. -/
def raise_for_errors (doc : XmlElem) : RaiseOutcome :=
  if doc.tag != qn LOST_NAMESPACE "errors" then .noRaise
  else
    match doc.children.head? with
    | none => .pyexn "IndexError"
    | some err =>
      let type_ := sliceFrom err.tag (pyLen LOST_NAMESPACE + 2)
      let msg := attrVal err "message"
      match (errorClassTable.filter
              (fun c => c.2.1 == "LoSTError" && c.2.2 == type_)).head? with
      | some c => .typed c.1 msg
      | none => .generic msg

/- HTTP layer, lost/server.py. -/

/-- An HTTP response as produced by xmlify: a flask Response carrying the
serialized document with the LoST MIME type; flask defaults the status
code to 200. -/
structure HttpResponse : Type where
  status : Nat
  mimetype : String
  body : XmlElem

def xmlify (doc : XmlElem) : HttpResponse :=
  { status := 200, mimetype := MIME_TYPE, body := doc }

/-- The flask error handler lost_error for LoSTError: serialize the
exception with the configured server id (app.config server-id) as
source. -/
def lost_error (type_ : String) (message serverIdCfg : Option String) : HttpResponse :=
  xmlify (toXmlError type_ message serverIdCfg)

/- The resolution engine, GeographicLoSTServer. -/

/-- Server configuration relevant to the modeled paths: constructor
arguments server_id and redirect of GeographicLoSTServer (table is
ignored by the queries, which hardcode server.mapping, and authoritative
is unused because check_authority is a no-op). -/
structure ServerCfg : Type where
  server_id : String
  redirect : Bool
deriving DecidableEq, Repr

/-- What the peer HTTP server does on a POST; exn stands for any
exception raised by requests.post or by parsing the peer response body
(body none on status 200 is an unparseable body). -/
inductive PeerReply : Type where
  | exn
  | status (code : Nat) (body : Option XmlElem)

def PeerFun : Type := String → XmlElem → PeerReply

/-- What a handler returns to flask: an element tree or Python None. -/
inductive PyRet : Type where
  | xml (x : XmlElem)
  | pynone

/-- Outcome of a handler invocation: a normal return together with the
list of peer POSTs performed (uri, posted document), a raised LoSTError
of a given kind and message, or a plain Python exception. -/
inductive FsOutcome : Type where
  | ret (v : PyRet) (posts : List (String × XmlElem))
  | raised (kind : String) (msg : String)
  | pyexn (kind : String)

def proxyFailedElem : XmlElem :=
  XmlElem.mk (qn LOST_NAMESPACE "error") [("message", "Proxy failed.")] none []

/-- GeographicLoSTServer.proxy_request: POST the serialized original
request to the peer; on HTTP 200 return the parsed body, on any
exception return a bare error element, on any other status fall off the
end of the function and return None.  The document POSTed is the
original request, unchanged.  Returns the Python result together with
the POST performed. -/
def proxy_request (peer : PeerFun) (server_uri : String)
    (original_request : XmlElem) : PyRet × List (String × XmlElem) :=
  (match peer server_uri original_request with
   | .exn => .xml proxyFailedElem
   | .status c b =>
     if c == 200 then
       match b with
       | some doc => .xml doc
       | none => .xml proxyFailedElem
     else .pynone,
   [(server_uri, original_request)])

/-- The serviceBoundary helper: wrap the ST_AsGML output in a boundary
envelope that declares the gml namespace; the embedded GML fragment is
carried as the text of the element. -/
def serviceBoundary (value : String) : XmlElem :=
  XmlElem.mk "serviceBoundary"
    [("profile", "geodetic-2d"), ("xmlns:gml", GML_NAMESPACE)] (some value) []

def displayNameElems : Option String → List XmlElem
  | some d => [XmlElem.mk "displayName" [(qn XML_NAMESPACE "lang", "en")] (some d) []]
  | none => []

def uriElems : Option AttrsUri → List XmlElem
  | some u => (pyIterUri u).map (fun s => XmlElem.mk "uri" [] (some s) [])
  | none => []

/-- The mapping element common to the leaf findServiceResponse and the
findIntersectResponse: attributes source, sourceId, lastUpdated, expires;
children displayName (when present), service, serviceBoundary and the
uri list, in document order.  now stands for the expires timestamp
computed from datetime.now() + timedelta(days=1). -/
def mappingElem (cfg : ServerCfg) (now : String) (row : QRow) : XmlElem :=
  XmlElem.mk "mapping"
    [("source", cfg.server_id), ("sourceId", toString row.id),
     ("lastUpdated", row.updated), ("expires", now)]
    none
    (displayNameElems row.attrs.displayName ++
     [XmlElem.mk "service" [] row.srv [], serviceBoundary row.gml] ++
     uriElems row.attrs.uri)

def leafResponse (cfg : ServerCfg) (now : String) (row : QRow) : XmlElem :=
  XmlElem.mk (qn LOST_NAMESPACE "findServiceResponse") [] none
    [mappingElem cfg now row]

def intersectResponse (cfg : ServerCfg) (now : String) (row : QRow) : XmlElem :=
  XmlElem.mk (qn LOST_NAMESPACE "findIntersectResponse") [] none
    [mappingElem cfg now row]

def redirectElem (target source : String) : XmlElem :=
  XmlElem.mk (qn LOST_NAMESPACE "redirect")
    [("target", target), ("source", source),
     ("message", "Redirecting to the next more specific server.")]
    none []

def noMappingErrElem : XmlElem :=
  XmlElem.mk (qn LOST_NAMESPACE "error")
    [("message", "No suitable mapping found.")] none []

/-- GeographicLoSTServer.findService (lost/server.py lines 148-220).
Reads the service text and the first child of location; rejects a wrong
srsName with SRSInvalid and any geometry other than gml:Point with
GeometryNotImplemented; builds the WKT point by swapping the GML lat lon
order; queries mappings filtered by the requested service.  A row there
is treated as non-leaf: redirect mode answers with a redirect element
whose target is the attrs uri, proxy mode forwards the request to the
attrs uri.  Only when that query is empty is the service-unfiltered
query run and its first row turned into the leaf findServiceResponse; if
that is also empty a bare error element is returned. -/
def findService (cfg : ServerCfg) (d : DB) (peer : PeerFun) (now : String)
    (req : XmlElem) : FsOutcome :=
  match childNamed req (qn LOST_NAMESPACE "service") with
  | none => .pyexn "AttributeError"
  | some se =>
    let service := se.text.map pyStrip
    match childNamed req (qn LOST_NAMESPACE "location") with
    | none => .pyexn "AttributeError"
    | some loc =>
      match loc.children.head? with
      | none => .pyexn "IndexError"
      | some geom =>
        if attrVal geom "srsName" != some SRS_URN then
          .raised "SRSInvalid" "Unsupported SRS name"
        else if geom.tag != qn GML_NAMESPACE "Point" then
          .raised "geometryNotImplemented"
            ("Unsupported geometry type " ++ geom.tag)
        else
          match childNamed geom (qn GML_NAMESPACE "pos") with
          | none => .pyexn "AttributeError"
          | some pos =>
            match splitWs (pyStrip (pos.text.getD "")) with
            | [lat, lon] =>
              match parseDec lon, parseDec lat with
              | some px, some py =>
                let p : Pt := (px, py)
                match fsQuery d p service with
                | row :: _ =>
                  match row.attrs.uri with
                  | some (.str u) =>
                    if cfg.redirect then
                      .ret (.xml (redirectElem u cfg.server_id)) []
                    else
                      let pr := proxy_request peer u req
                      .ret pr.1 pr.2
                  | some (.list _) =>
                    if cfg.redirect then .pyexn "TypeError"
                    else .ret (.xml proxyFailedElem) []
                  | none => .pyexn "KeyError"
                | [] =>
                  match fsQueryAll d p with
                  | [] => .ret (.xml noMappingErrElem) []
                  | row :: _ => .ret (.xml (leafResponse cfg now row)) []
              | _, _ => .pyexn "DatabaseError"
            | _ => .pyexn "ValueError"

/-- GeographicLoSTServer.findIntersect (lost/server.py lines 103-146).
Reads the service text and the first child of interest, rejects a wrong
srsName, hands the GML fragment to ST_GeomFromGML and fetches one row of
the intersect join filtered by the requested service; no row raises
NotFound, a row is answered with a single findIntersectResponse built
from it. -/
def findIntersect (cfg : ServerCfg) (d : DB) (now : String)
    (req : XmlElem) : FsOutcome :=
  match childNamed req (qn LOST_NAMESPACE "service") with
  | none => .pyexn "AttributeError"
  | some se =>
    let service := se.text.map pyStrip
    match childNamed req (qn LOST_NAMESPACE "interest") with
    | none => .pyexn "AttributeError"
    | some interest =>
      match interest.children.head? with
      | none => .pyexn "IndexError"
      | some geom =>
        if attrVal geom "srsName" != some SRS_URN then
          .raised "SRSInvalid" "Unsupported SRS name"
        else
          match parseGmlGeom geom with
          | none => .pyexn "DatabaseError"
          | some g =>
            match fiQuery d g service with
            | [] => .raised "notFound" "No suitable mapping found"
            | row :: _ => .ret (.xml (intersectResponse cfg now row)) []

/- The loader, lost/server.py update_db and load. -/

/-- Fresh GUID string: str(GUID()) draws a random uuid4; successive draws
are modeled by a counter so that the loader stays a function. -/
def freshGuid (n : Nat) : String := "guid-" ++ toString n

/-- Shape phase of update_db (lines 363-381): look the geometry up by
ST_Equals; when absent insert it with ST_ForceCollection applied, the
attrs uri (or a fresh GUID) and the attrs timestamp, returning the new
id, otherwise return the existing id. -/
def shapeResolve (geometry : Geom) (attrs : SAttrs) (d : DB) : DB × Nat :=
  match d.shapes.find? (fun s => sEquals s.geom geometry) with
  | some s => (d, s.id)
  | none =>
    ({ d with
        shapes := d.shapes ++
          [⟨d.nextShapeId, attrs.uri.getD (freshGuid d.guidCtr),
            forceCollection geometry, attrs.timestamp, attrs⟩],
        nextShapeId := d.nextShapeId + 1,
        guidCtr := d.guidCtr + 1 },
     d.nextShapeId)

/-- The delete filter of update_db: srv equals lost and shape IS NULL or
shape equals the given id. -/
def mDelPred (sid : Nat) (m : MRow) : Bool :=
  m.srv == some "lost" && (m.shape == none || m.shape == some sid)

/-- The mapping row inserted by the loader for a peer URL. -/
def mkLostRow (mid sid : Nat) (server_uri : String) : MRow :=
  ⟨mid, some "lost", some sid, "", ⟨some (.str server_uri), none⟩⟩

/-- Mapping phase of update_db (lines 383-396): when the shape attrs
carry a uri and a URL map was supplied, delete the stale lost rows for
this shape (or with NULL shape) and, when the URL map knows the uri,
insert a fresh lost row pointing at the mapped peer URL. -/
def mapReplace (attrs : SAttrs) (url_map : Option (List (String × String)))
    (sid : Nat) (d : DB) : DB :=
  match attrs.uri, url_map with
  | some uri, some um =>
    let server_uri := um.lookup uri
    let d2 := { d with mappings := d.mappings.filter (fun m => !mDelPred sid m) }
    match server_uri with
    | some su =>
      { d2 with
          mappings := d2.mappings ++ [mkLostRow d2.nextMappingId sid su],
          nextMappingId := d2.nextMappingId + 1 }
    | none => d2
  | _, _ => d

/-- update_db, the composition of the two phases above. -/
def update_db (geometry : Geom) (attrs : SAttrs)
    (url_map : Option (List (String × String))) (d : DB) : DB :=
  let r := shapeResolve geometry attrs d
  mapReplace attrs url_map r.2 r.1

/- GeoJSON input files and osm.extract_boundary (osm.py lines 123-151),
the stage through which the load command obtains the geometry and the
attribute bag of every file.  Dictionary keys the code reads
unconditionally (properties, tags, id, timestamp) are record fields:
osm2geojson always emits them, and a file lacking one aborts the command
just like the two explicit raise statements, which are modeled by the
none result. -/

/-- The properties of a GeoJSON feature: the OSM element type, id and
timestamp, and the tag dictionary. -/
structure FeatureProps : Type where
  ftype : String
  id : String
  timestamp : String
  tags : List (String × String)
deriving DecidableEq, Repr

/-- A GeoJSON feature: its type string, properties and geometry (the
store-native form of the geometry member, see Geom). -/
structure Feature : Type where
  ftype : String
  props : FeatureProps
  geometry : Geom
deriving DecidableEq, Repr

/-- A GeoJSON document: its type string and feature list. -/
structure GeoJson : Type where
  gtype : String
  features : List Feature
deriving DecidableEq, Repr

/-- The attribute bag extract_boundary builds (osm.py lines 136-147):
id and timestamp always, country from ISO3166-1, state from ISO3166-2
and the english (or plain) name when the tags carry them.  No uri key is
ever produced, so the bag has uri none. -/
def extractAttrs (p : FeatureProps) : SAttrs :=
  { uri := none,
    timestamp := p.timestamp,
    rest :=
      [("id", p.id)] ++
      (match p.tags.lookup "ISO3166-1" with
       | some c => [("country", c)]
       | none => []) ++
      (match p.tags.lookup "ISO3166-2" with
       | some s => [("state", s)]
       | none => []) ++
      (match p.tags.lookup "name:en" with
       | some n => [("name", n)]
       | none =>
         match p.tags.lookup "name" with
         | some n => [("name", n)]
         | none => []) }

/-- The feature scan of extract_boundary: skip features whose type is
not Feature, return the geometry and attribute bag of the first feature
whose properties type is relation or way; none models the exception
raised when no such feature exists. -/
def findBoundary : List Feature → Option (Geom × SAttrs)
  | [] => none
  | f :: rest =>
    if f.ftype != "Feature" then findBoundary rest
    else if f.props.ftype == "relation" || f.props.ftype == "way" then
      some (f.geometry, extractAttrs f.props)
    else findBoundary rest

/-- osm.extract_boundary: require a FeatureCollection (none models the
raised exception) and scan its features. -/
def extract_boundary (obj : GeoJson) : Option (Geom × SAttrs) :=
  if obj.gtype != "FeatureCollection" then none
  else findBoundary obj.features

/-- The load command (server.py lines 399-418): for each matched GeoJSON
file in glob order, run extract_boundary and hand its result to
update_db; a file on which extract_boundary raises aborts the command,
modeled by none. -/
def load (files : List GeoJson)
    (url_map : Option (List (String × String))) (d : DB) : Option DB :=
  match files with
  | [] => some d
  | file :: rest =>
    match extract_boundary file with
    | none => none
    | some (g, a) => load rest url_map (update_db g a url_map d)

/- Module-level name binding, for the package import contract. -/

/-- The names bound at module level by lost/__init__.py. -/
def initModuleNames : List String :=
  ["MIME_TYPE", "LOST_NAMESPACE", "GML_NAMESPACE", "XML_NAMESPACE",
   "SRS_URN", "NAMESPACE_MAP", "LoSTResolver", "LoSTPublisher",
   "LoSTResponder"]

/-- The names lost/server.py imports from the package on line 14. -/
def serverPackageImports : List String :=
  ["GML_NAMESPACE", "LOST_NAMESPACE", "XML_NAMESPACE", "NAMESPACE_MAP",
   "LOST_MIME_TYPE", "SRS_URN"]

/-- The names lost/client.py imports from the package on line 5. -/
def clientPackageImports : List String :=
  ["LOST_MIME_TYPE", "LOST_NAMESPACE", "NAMESPACE_MAP", "GML_NAMESPACE",
   "SRS_URN"]

/-- A from-package import statement succeeds exactly when every imported
name is bound by the package module (the lost package has no submodules
by these names, so attribute lookup is the only way they can resolve). -/
def importsResolve (imported defined : List String) : Bool :=
  imported.all (fun n => defined.contains n)

/- Concrete fixtures used to instantiate the theorems, taken from the
end-to-end scenarios of the specification (section 8). -/

/-- A GML Point location child with the accepted SRS and the given
gml:pos text (lat lon order). -/
def gmlPoint (posText : String) : XmlElem :=
  XmlElem.mk (qn GML_NAMESPACE "Point") [("srsName", SRS_URN)] none
    [XmlElem.mk (qn GML_NAMESPACE "pos") [] (some posText) []]

/-- A GML Polygon child carrying an axis-aligned rectangle, with the
accepted SRS. -/
def gmlRect (posListText : String) : XmlElem :=
  XmlElem.mk (qn GML_NAMESPACE "Polygon") [("srsName", SRS_URN)] none
    [XmlElem.mk (qn GML_NAMESPACE "exterior") [] none
      [XmlElem.mk (qn GML_NAMESPACE "LinearRing") [] none
        [XmlElem.mk (qn GML_NAMESPACE "posList") [] (some posListText) []]]]

/-- A findService document as the client builds it (client.py lines
70-78): root attributes, a location with the geodetic-2d profile holding
one geometry child, a service element, and any further children (for
instance a path element). -/
def fsDoc (rootAttrs : List (String × String)) (svc : String)
    (geomChild : XmlElem) (extra : List XmlElem) : XmlElem :=
  XmlElem.mk (qn LOST_NAMESPACE "findService") rootAttrs none
    ([XmlElem.mk (qn LOST_NAMESPACE "location") [("profile", "geodetic-2d")]
        none [geomChild],
      XmlElem.mk (qn LOST_NAMESPACE "service") [] (some svc) []] ++ extra)

/-- A findIntersect document, analogous to fsDoc with an interest
element (client.py lines 88-96). -/
def fiDoc (rootAttrs : List (String × String)) (svc : String)
    (geomChild : XmlElem) : XmlElem :=
  XmlElem.mk (qn LOST_NAMESPACE "findIntersect") rootAttrs none
    [XmlElem.mk (qn LOST_NAMESPACE "interest") [("profile", "geodetic-2d")]
       none [geomChild],
     XmlElem.mk (qn LOST_NAMESPACE "service") [] (some svc) []]

/-- An errors document whose single child has the given LoST-namespace
local name and optional message, as a peer serializes errors. -/
def errorsDoc (kind : String) (m : Option String) : XmlElem :=
  XmlElem.mk (qn LOST_NAMESPACE "errors") [] none
    [XmlElem.mk (qn LOST_NAMESPACE kind)
      (match m with
       | some v => [("message", v)]
       | none => []) none []]

def cfgRedirect : ServerCfg := ⟨"lost-server", true⟩

def cfgProxy : ServerCfg := ⟨"lost-server", false⟩

def peerExn : PeerFun := fun _ _ => .exn

def peerFsResponse : XmlElem :=
  XmlElem.mk (qn LOST_NAMESPACE "findServiceResponse") [] none []

def peerOk : PeerFun := fun _ _ => .status 200 (some peerFsResponse)

/-- The S1 shape: POLYGON((-74 40, -73 40, -73 41, -74 41, -74 40)). -/
def nyRect : Geom := .rect (intDec (-74)) (intDec 40) (intDec (-73)) (intDec 41)

def s1Shape : Shape :=
  ⟨0, "urn:shape:ny", nyRect, "2024-01-01T00:00:00",
   ⟨none, "2024-01-01T00:00:00", []⟩⟩

/-- The S1 mapping row: (service=urn:service:sos, uri=sip:psap@example),
with attrs uri stored as a single string. -/
def sosRow : MRow :=
  ⟨0, some "urn:service:sos", some 0, "2024-01-01T00:00:00",
   ⟨some (.str "sip:psap@example"), none⟩⟩

def dbS1 : DB := ⟨[s1Shape], [sosRow], 1, 1, 0⟩

/-- Variant of the S1 row with the uri stored as a list of strings. -/
def sosRowList : MRow :=
  ⟨0, some "urn:service:sos", some 0, "2024-01-01T00:00:00",
   ⟨some (.list ["sip:psap@example"]), none⟩⟩

def dbS1List : DB := ⟨[s1Shape], [sosRowList], 1, 1, 0⟩

/-- The S3 peer mapping row: attrs uri is the peer URL. -/
def peerRow : MRow :=
  ⟨0, some "urn:service:sos", some 0, "2024-01-01T00:00:00",
   ⟨some (.str "http://peer-ny:5000"), none⟩⟩

def dbPeer : DB := ⟨[s1Shape], [peerRow], 1, 1, 0⟩

/-- A second sos row over the same shape, for multi-match intersect. -/
def sosRow2 : MRow :=
  ⟨1, some "urn:service:sos", some 0, "2024-02-02T00:00:00",
   ⟨some (.list ["sip:other@example"]), none⟩⟩

def dbTwoRows : DB := ⟨[s1Shape], [sosRowList, sosRow2], 1, 2, 0⟩

/-- The S1 request: findService for urn:service:sos at
Point(-73.5, 40.5), recursive with an inline boundary. -/
def reqS1 : XmlElem :=
  fsDoc [("serviceBoundary", "value"), ("recursive", "true")]
    "urn:service:sos" (gmlPoint "40.5 -73.5") []

/-- Same point and service, but with recursive="false". -/
def reqRecFalse : XmlElem :=
  fsDoc [("serviceBoundary", "value"), ("recursive", "false")]
    "urn:service:sos" (gmlPoint "40.5 -73.5") []

/-- A path element already carrying this server as a via entry. -/
def pathWithSelf : XmlElem :=
  XmlElem.mk (qn LOST_NAMESPACE "path") [] none
    [XmlElem.mk (qn LOST_NAMESPACE "via") [("source", "lost-server")] none []]

/-- The S5 request: recursive findService whose path already contains
the server id. -/
def reqWithPath : XmlElem :=
  fsDoc [("serviceBoundary", "value"), ("recursive", "true")]
    "urn:service:sos" (gmlPoint "40.5 -73.5") [pathWithSelf]

/-- The S2 request: findService at Point(0, 0). -/
def req00 : XmlElem :=
  fsDoc [("serviceBoundary", "value"), ("recursive", "true")]
    "urn:service:sos" (gmlPoint "0 0") []

/-- A findService for a service with no mapping row of that srv value,
at the S1 point; it exercises the leaf branch. -/
def reqOtherService : XmlElem :=
  fsDoc [("serviceBoundary", "value"), ("recursive", "true")]
    "urn:service:xmpp" (gmlPoint "40.5 -73.5") []

/-- The S1 request with a Polygon location instead of a Point. -/
def reqPolygon : XmlElem :=
  fsDoc [("serviceBoundary", "value"), ("recursive", "true")]
    "urn:service:sos" (gmlRect "-74 40 -73 41") []

/-- A findIntersect over a rectangle meeting the S1 shape. -/
def reqIntersect : XmlElem :=
  fiDoc [("serviceBoundary", "value"), ("recursive", "true")]
    "urn:service:sos" (gmlRect "-74 40 -73 41")

/-- One boundary GeoJSON file for the loader theorem: a relation
feature carrying the S1 rectangle. -/
def gjFile1 : GeoJson :=
  ⟨"FeatureCollection",
   [⟨"Feature",
     ⟨"relation", "61320", "t0",
      [("ISO3166-2", "US-NY"), ("name:en", "New York")]⟩, nyRect⟩]⟩

def urlMap1 : Option (List (String × String)) := some [("u", "http://peer")]

def dbEmpty : DB := ⟨[], [], 0, 0, 0⟩

/-- The store produced by one loader run over gjFile1 from the empty
store. -/
def dbAfterLoad1 : DB :=
  ⟨[⟨0, "guid-0", Geom.coll nyRect, "t0",
     ⟨none, "t0",
      [("id", "61320"), ("state", "US-NY"), ("name", "New York")]⟩⟩],
   [], 1, 0, 1⟩

/-- The first join row of the dbTwoRows intersect query. -/
def qrowFirst : QRow :=
  ⟨0, some "urn:service:sos", "2024-01-01T00:00:00",
   ⟨some (.list ["sip:psap@example"]), none⟩, asGml nyRect⟩

/-- The second join row of the dbTwoRows intersect query. -/
def qrowSecond : QRow :=
  ⟨1, some "urn:service:sos", "2024-02-02T00:00:00",
   ⟨some (.list ["sip:other@example"]), none⟩, asGml nyRect⟩

/-- The join row of the dbPeer store. -/
def qrowPeer : QRow :=
  ⟨0, some "urn:service:sos", "2024-01-01T00:00:00",
   ⟨some (.str "http://peer-ny:5000"), none⟩, asGml nyRect⟩

/- Theorems.  Each claim of the specification audit is settled below; the
helper lemmas carry no claim names. -/

theorem childNamed_fsDoc_service (ra : List (String × String)) (svc : String)
    (g : XmlElem) (extra : List XmlElem) :
    childNamed (fsDoc ra svc g extra) (qn LOST_NAMESPACE "service") =
      some (XmlElem.mk (qn LOST_NAMESPACE "service") [] (some svc) []) := rfl

theorem childNamed_fsDoc_location (ra : List (String × String)) (svc : String)
    (g : XmlElem) (extra : List XmlElem) :
    childNamed (fsDoc ra svc g extra) (qn LOST_NAMESPACE "location") =
      some (XmlElem.mk (qn LOST_NAMESPACE "location")
        [("profile", "geodetic-2d")] none [g]) := rfl

theorem childNamed_fiDoc_service (ra : List (String × String)) (svc : String)
    (g : XmlElem) :
    childNamed (fiDoc ra svc g) (qn LOST_NAMESPACE "service") =
      some (XmlElem.mk (qn LOST_NAMESPACE "service") [] (some svc) []) := rfl

theorem childNamed_fiDoc_interest (ra : List (String × String)) (svc : String)
    (g : XmlElem) :
    childNamed (fiDoc ra svc g) (qn LOST_NAMESPACE "interest") =
      some (XmlElem.mk (qn LOST_NAMESPACE "interest")
        [("profile", "geodetic-2d")] none [g]) := rfl

theorem tag_mk (t : String) (a : List (String × String)) (x : Option String)
    (c : List XmlElem) : XmlElem.tag (.mk t a x c) = t := rfl

theorem children_mk (t : String) (a : List (String × String)) (x : Option String)
    (c : List XmlElem) : XmlElem.children (.mk t a x c) = c := rfl

theorem attrVal_gmlPoint_srs (t : String) :
    attrVal (gmlPoint t) "srsName" = some SRS_URN := rfl

theorem tag_gmlPoint (t : String) :
    (gmlPoint t).tag = qn GML_NAMESPACE "Point" := rfl

theorem childNamed_gmlPoint_pos (t : String) :
    childNamed (gmlPoint t) (qn GML_NAMESPACE "pos") =
      some (XmlElem.mk (qn GML_NAMESPACE "pos") [] (some t) []) := rfl

theorem mapReplace_shapes (a : SAttrs) (um : Option (List (String × String)))
    (sid : Nat) (d : DB) : (mapReplace a um sid d).shapes = d.shapes := by
  unfold mapReplace
  cases ha : a.uri with
  | none => rfl
  | some uri =>
    cases um with
    | none => rfl
    | some m =>
      dsimp only
      cases hl : List.lookup uri m <;> rfl

theorem update_db_eq (g : Geom) (a : SAttrs)
    (um : Option (List (String × String))) (d : DB) :
    update_db g a um d =
      mapReplace a um (shapeResolve g a d).2 (shapeResolve g a d).1 := rfl

/-- C7: every LoST-layer error caught by the flask error handler is
delivered as HTTP 200 with the LoST MIME type, the body being an errors
container in the LoST namespace holding exactly one child element whose
local name is the error kind, carrying message (exactly when present),
source equal to the configured server id, and xml:lang="en". -/
theorem C7_errors_are_200_with_single_typed_child (kind : String)
    (message : Option String) (sid : String) :
    (lost_error kind message (some sid)).status = 200 ∧
    (lost_error kind message (some sid)).mimetype = MIME_TYPE ∧
    (lost_error kind message (some sid)).body.tag = qn LOST_NAMESPACE "errors" ∧
    ∃ c, (lost_error kind message (some sid)).body.children = [c] ∧
      c.tag = kind ∧
      attrVal c "message" = message ∧
      attrVal c "source" = some sid ∧
      attrVal c (qn XML_NAMESPACE "lang") = some "en" := by
  refine ⟨rfl, rfl, rfl, ?_⟩
  cases message with
  | none => exact ⟨_, rfl, rfl, rfl, rfl, rfl⟩
  | some m => exact ⟨_, rfl, rfl, rfl, rfl, rfl⟩

/-- C8 amended: raise_for_errors raises the typed class for exactly the
kinds whose class immediately derives from LoSTError; the two kinds
whose classes derive from NotImplemented (serviceNotImplemented and
geometryNotImplemented) fall through to the generic LoSTError instead of
their own classes. -/
theorem C8_dispatch_by_direct_subclass (m : Option String) :
    raise_for_errors (errorsDoc "badRequest" m) = .typed "BadRequest" m ∧
    raise_for_errors (errorsDoc "forbidden" m) = .typed "Forbidden" m ∧
    raise_for_errors (errorsDoc "internalError" m) = .typed "InternalError" m ∧
    raise_for_errors (errorsDoc "locationProfileUnrecognized" m) =
      .typed "LocationProfileUnrecognized" m ∧
    raise_for_errors (errorsDoc "locationInvalid" m) =
      .typed "LocationInvalid" m ∧
    raise_for_errors (errorsDoc "SRSInvalid" m) = .typed "SRSInvalid" m ∧
    raise_for_errors (errorsDoc "loop" m) = .typed "Loop" m ∧
    raise_for_errors (errorsDoc "notFound" m) = .typed "NotFound" m ∧
    raise_for_errors (errorsDoc "serverError" m) = .typed "ServerError" m ∧
    raise_for_errors (errorsDoc "serverTimeout" m) =
      .typed "ServerTimeout" m ∧
    raise_for_errors (errorsDoc "notAuthoritative" m) =
      .typed "NotAuthoritative" m ∧
    raise_for_errors (errorsDoc "notImplemented" m) =
      .typed "NotImplemented" m ∧
    raise_for_errors (errorsDoc "serviceNotImplemented" m) = .generic m ∧
    raise_for_errors (errorsDoc "geometryNotImplemented" m) = .generic m := by
  cases m <;>
    exact ⟨rfl, rfl, rfl, rfl, rfl, rfl, rfl, rfl, rfl, rfl, rfl, rfl, rfl, rfl⟩

/-- C2: the claim says that a findService whose point lies outside every
stored shape raises NotFound and is answered with an errors envelope
whose child is notFound.  Evaluating the embedded findService at the S2
input (the S1 store, Point(0, 0)) shows the code instead returns a bare
error element with a message attribute: no LoSTError is raised, and the
returned element is not an errors container. -/
theorem C2_no_match_returns_bare_error_element :
    findService cfgProxy dbS1 peerExn "EXPIRES" req00 =
      .ret (.xml noMappingErrElem) [] ∧
    noMappingErrElem.tag ≠ qn LOST_NAMESPACE "errors" ∧
    noMappingErrElem.attrs = [("message", "No suitable mapping found.")] :=
  ⟨rfl, by decide, rfl⟩

/-- C3: the claim says importing lost.server (or lost.client) succeeds
because the package binds the MIME-type constant under the imported
name.  The name LOST_MIME_TYPE imported by both modules is not among the
names bound by lost/__init__.py (which binds MIME_TYPE), so both
from-package imports fail to resolve. -/
theorem C3_package_import_fails :
    importsResolve serverPackageImports initModuleNames = false ∧
    importsResolve clientPackageImports initModuleNames = false ∧
    serverPackageImports.contains "LOST_MIME_TYPE" = true ∧
    clientPackageImports.contains "LOST_MIME_TYPE" = true ∧
    initModuleNames.contains "LOST_MIME_TYPE" = false ∧
    initModuleNames.contains "MIME_TYPE" = true := by
  decide

/-- C1 counterexample: the claim says a findService whose point falls in
a shape holding a leaf mapping for the requested service URN (the S1
scenario) is answered with a findServiceResponse and is neither
redirected nor proxied.  On the embedded code, the S1 request against
the S1 store (mapping row with srv = urn:service:sos, uri =
sip:psap@example) is answered with a redirect element targeting the
provider uri, because findService treats any row matching the requested
service as non-leaf. -/
theorem C1_leaf_mapping_redirected :
    findService cfgRedirect dbS1 peerExn "EXPIRES" reqS1 =
      .ret (.xml (redirectElem "sip:psap@example" "lost-server")) [] ∧
    (redirectElem "sip:psap@example" "lost-server").tag ≠
      qn LOST_NAMESPACE "findServiceResponse" :=
  ⟨rfl, by decide⟩

/-- C4 counterexample: the claim says a proxy-mode server still answers
with a redirect whenever the client sets recursive to false.  On the
embedded code a proxy-mode server proxies the recursive="false" request
(one peer POST is performed) and returns the peer response, which is not
a redirect: findService never reads the recursive attribute. -/
theorem C4_nonrecursive_still_proxied :
    findService cfgProxy dbPeer peerOk "EXPIRES" reqRecFalse =
      .ret (.xml peerFsResponse) [("http://peer-ny:5000", reqRecFalse)] ∧
    attrVal reqRecFalse "recursive" = some "false" ∧
    peerFsResponse.tag ≠ qn LOST_NAMESPACE "redirect" :=
  ⟨rfl, rfl, by decide⟩

/-- C5 counterexample: the claim says a request whose path already
contains the server id is refused with a loop error, and that the server
appends its id to the path before forwarding.  On the embedded code a
request carrying a path with a via entry for lost-server is forwarded to
the peer verbatim (the POSTed document is the original request object,
so its path still holds exactly one lost-server entry and no id was
appended), and no loop error is raised. -/
theorem C5_loop_request_forwarded_unchanged :
    findService cfgProxy dbPeer peerOk "EXPIRES" reqWithPath =
      .ret (.xml peerFsResponse) [("http://peer-ny:5000", reqWithPath)] ∧
    childNamed reqWithPath (qn LOST_NAMESPACE "path") = some pathWithSelf ∧
    (pathWithSelf.children.filter
      (fun v => attrVal v "source" == some "lost-server")).length = 1 :=
  ⟨rfl, rfl, rfl⟩

/-- C6 counterexample: the claim says that when more than one mapping
row matches a findIntersect, the response is a findIntersectResponses
container with one sub-response per row.  On the embedded code a store
with two matching rows is answered with the singular
findIntersectResponse built from the first row only. -/
theorem C6_two_matches_singular_response :
    findIntersect cfgProxy dbTwoRows "EXPIRES" reqIntersect =
      .ret (.xml (intersectResponse cfgProxy "EXPIRES" qrowFirst)) [] ∧
    (fiQuery dbTwoRows (.rect (intDec (-74)) (intDec 40) (intDec (-73)) (intDec 41))
      (some "urn:service:sos")).length = 2 ∧
    (intersectResponse cfgProxy "EXPIRES" qrowFirst).tag =
      qn LOST_NAMESPACE "findIntersectResponse" ∧
    (intersectResponse cfgProxy "EXPIRES" qrowFirst).tag ≠
      qn LOST_NAMESPACE "findIntersectResponses" :=
  ⟨rfl, by decide, rfl, by decide⟩

/-- C8 counterexample: the claim says an errors document whose child is
serviceNotImplemented raises the typed ServiceNotImplemented class.  On
the embedded raise_for_errors the scan only accepts classes whose
immediate base is LoSTError; ServiceNotImplemented derives from
NotImplemented, so the generic LoSTError is raised instead. -/
theorem C8_serviceNotImplemented_is_generic :
    raise_for_errors (errorsDoc "serviceNotImplemented" (some "x")) =
      .generic (some "x") ∧
    errorClassTable.contains
      ("ServiceNotImplemented", "NotImplemented", "serviceNotImplemented") =
      true :=
  ⟨rfl, by decide⟩

/-- C9 counterexample: the claim says GML Polygon (and MultiPolygon)
location geometries are accepted by findService.  On the embedded code a
findService whose location child is a gml:Polygon with the accepted SRS
raises geometryNotImplemented. -/
theorem C9_polygon_rejected :
    findService cfgRedirect dbS1 peerExn "EXPIRES" reqPolygon =
      .raised "geometryNotImplemented"
        ("Unsupported geometry type " ++ qn GML_NAMESPACE "Polygon") :=
  rfl

/-- C1 amended: findService turns a request into a leaf
findServiceResponse exactly from the first row of the service-unfiltered
containment query, and only when the service-filtered query is empty
(a row whose srv equals the requested service URN is instead treated as
non-leaf and redirected or proxied, see the counterexample).  The
response carries one mapping element whose uri children are the values
of the row attrs uri, together with the service of the row and one
inline serviceBoundary; no peer POST is performed. -/
theorem C1_leaf_only_from_unfiltered_query (cfg : ServerCfg) (d : DB)
    (peer : PeerFun) (now : String) (ra : List (String × String))
    (svc posT : String) (extra : List XmlElem) (latS lonS : String)
    (px py : Dec) (row : QRow) (rest : List QRow) (us : List String)
    (hsplit : splitWs (pyStrip posT) = [latS, lonS])
    (hlon : parseDec lonS = some px) (hlat : parseDec latS = some py)
    (hq1 : fsQuery d (px, py) (some (pyStrip svc)) = [])
    (hq2 : fsQueryAll d (px, py) = row :: rest)
    (huri : row.attrs.uri = some (.list us)) :
    findService cfg d peer now (fsDoc ra svc (gmlPoint posT) extra) =
      .ret (.xml (leafResponse cfg now row)) [] ∧
    (leafResponse cfg now row).tag = qn LOST_NAMESPACE "findServiceResponse" ∧
    (leafResponse cfg now row).children = [mappingElem cfg now row] ∧
    (mappingElem cfg now row).children.filter (fun c => c.tag == "uri") =
      us.map (fun v => XmlElem.mk "uri" [] (some v) []) ∧
    (mappingElem cfg now row).children.filter (fun c => c.tag == "service") =
      [XmlElem.mk "service" [] row.srv []] ∧
    (mappingElem cfg now row).children.filter
        (fun c => c.tag == "serviceBoundary") = [serviceBoundary row.gml] := by
  refine ⟨?_, rfl, rfl, ?_, ?_, ?_⟩
  · simp only [findService, childNamed_fsDoc_service, childNamed_fsDoc_location,
      XmlElem.text, XmlElem.children, List.head?, Option.map, Option.getD,
      attrVal_gmlPoint_srs, tag_gmlPoint, childNamed_gmlPoint_pos,
      bne_self_eq_false, Bool.false_eq_true, if_false, hsplit, hlon, hlat,
      hq1, hq2]
  all_goals
    cases hdn : row.attrs.displayName <;>
      simp [mappingElem, displayNameElems, uriElems, serviceBoundary, huri, hdn,
        tag_mk, children_mk, List.filter_map, Function.comp_def,
        beq_self_eq_true, List.filter_true, pyIterUri]

theorem C1_leaf_only_from_unfiltered_query_witness :
    findService cfgProxy dbS1List peerExn "EXPIRES"
        (fsDoc [("serviceBoundary", "value"), ("recursive", "true")]
          "urn:service:xmpp" (gmlPoint "40.5 -73.5") []) =
      .ret (.xml (leafResponse cfgProxy "EXPIRES" qrowFirst)) [] :=
  (C1_leaf_only_from_unfiltered_query cfgProxy dbS1List peerExn "EXPIRES"
    [("serviceBoundary", "value"), ("recursive", "true")] "urn:service:xmpp"
    "40.5 -73.5" [] "40.5" "-73.5" ⟨-735, 1⟩ ⟨405, 1⟩ qrowFirst []
    ["sip:psap@example"] (by decide) (by decide) (by decide) (by decide)
    (by decide) (by decide)).1

/-- C4 amended: for a request matching a mapping row of the requested
service, the answer is the redirect element (target the row attrs uri,
source the server id, a message attribute and no path child) exactly
when the server is configured in redirect mode; the recursive attribute
of the request is never read, so a proxy-mode server proxies even a
recursive="false" request (see the counterexample). -/
theorem C4_redirect_iff_server_redirect_mode (cfg : ServerCfg) (d : DB)
    (peer : PeerFun) (now : String) (ra : List (String × String))
    (svc posT : String) (extra : List XmlElem) (latS lonS : String)
    (px py : Dec) (row : QRow) (rest : List QRow) (u : String)
    (hsplit : splitWs (pyStrip posT) = [latS, lonS])
    (hlon : parseDec lonS = some px) (hlat : parseDec latS = some py)
    (hq1 : fsQuery d (px, py) (some (pyStrip svc)) = row :: rest)
    (huri : row.attrs.uri = some (.str u)) :
    (findService cfg d peer now (fsDoc ra svc (gmlPoint posT) extra) =
        .ret (.xml (redirectElem u cfg.server_id)) [] ↔
      cfg.redirect = true) ∧
    (redirectElem u cfg.server_id).attrs =
      [("target", u), ("source", cfg.server_id),
       ("message", "Redirecting to the next more specific server.")] ∧
    (redirectElem u cfg.server_id).children = [] := by
  refine ⟨?_, rfl, rfl⟩
  simp only [findService, childNamed_fsDoc_service, childNamed_fsDoc_location,
    XmlElem.text, XmlElem.children, List.head?, Option.map, Option.getD,
    attrVal_gmlPoint_srs, tag_gmlPoint, childNamed_gmlPoint_pos,
    bne_self_eq_false, Bool.false_eq_true, if_false, hsplit, hlon, hlat,
    hq1, huri]
  cases hcr : cfg.redirect with
  | true => simp
  | false => simp [proxy_request]

theorem C4_redirect_iff_server_redirect_mode_witness :
    findService cfgRedirect dbPeer peerExn "EXPIRES"
        (fsDoc [("serviceBoundary", "value"), ("recursive", "false")]
          "urn:service:sos" (gmlPoint "40.5 -73.5") []) =
      .ret (.xml (redirectElem "http://peer-ny:5000"
        cfgRedirect.server_id)) [] :=
  ((C4_redirect_iff_server_redirect_mode cfgRedirect dbPeer peerExn "EXPIRES"
    [("serviceBoundary", "value"), ("recursive", "false")] "urn:service:sos"
    "40.5 -73.5" [] "40.5" "-73.5" ⟨-735, 1⟩ ⟨405, 1⟩ qrowPeer []
    "http://peer-ny:5000" (by decide) (by decide) (by decide) (by decide)
    (by decide)).1).mpr rfl

/-- C5 amended: when a proxy-mode server resolves a request to a
non-leaf row it performs exactly one peer POST whose body is the
original request document, verbatim: no server id is appended to the
path, no path element is created, and no loop check is performed, so a
request whose path already contains the server id is forwarded anyway
(see the counterexample). -/
theorem C5_proxy_forwards_request_verbatim (cfg : ServerCfg) (d : DB)
    (peer : PeerFun) (now : String) (ra : List (String × String))
    (svc posT : String) (extra : List XmlElem) (latS lonS : String)
    (px py : Dec) (row : QRow) (rest : List QRow) (u : String)
    (hredirect : cfg.redirect = false)
    (hsplit : splitWs (pyStrip posT) = [latS, lonS])
    (hlon : parseDec lonS = some px) (hlat : parseDec latS = some py)
    (hq1 : fsQuery d (px, py) (some (pyStrip svc)) = row :: rest)
    (huri : row.attrs.uri = some (.str u)) :
    findService cfg d peer now (fsDoc ra svc (gmlPoint posT) extra) =
      .ret (proxy_request peer u (fsDoc ra svc (gmlPoint posT) extra)).1
        [(u, fsDoc ra svc (gmlPoint posT) extra)] := by
  simp only [findService, childNamed_fsDoc_service, childNamed_fsDoc_location,
    XmlElem.text, XmlElem.children, List.head?, Option.map, Option.getD,
    attrVal_gmlPoint_srs, tag_gmlPoint, childNamed_gmlPoint_pos,
    bne_self_eq_false, Bool.false_eq_true, if_false, hsplit, hlon, hlat,
    hq1, huri, hredirect]
  rfl

theorem C5_proxy_forwards_request_verbatim_witness :
    findService cfgProxy dbPeer peerOk "EXPIRES"
        (fsDoc [("serviceBoundary", "value"), ("recursive", "true")]
          "urn:service:sos" (gmlPoint "40.5 -73.5") [pathWithSelf]) =
      .ret (proxy_request peerOk "http://peer-ny:5000"
          (fsDoc [("serviceBoundary", "value"), ("recursive", "true")]
            "urn:service:sos" (gmlPoint "40.5 -73.5") [pathWithSelf])).1
        [("http://peer-ny:5000",
          fsDoc [("serviceBoundary", "value"), ("recursive", "true")]
            "urn:service:sos" (gmlPoint "40.5 -73.5") [pathWithSelf])] :=
  C5_proxy_forwards_request_verbatim cfgProxy dbPeer peerOk "EXPIRES"
    [("serviceBoundary", "value"), ("recursive", "true")] "urn:service:sos"
    "40.5 -73.5" [pathWithSelf] "40.5" "-73.5" ⟨-735, 1⟩ ⟨405, 1⟩ qrowPeer []
    "http://peer-ny:5000" (by decide) (by decide) (by decide) (by decide)
    (by decide) (by decide)

/-- C6 amended: whenever the findIntersect query returns at least one
row, the response is the singular findIntersectResponse built from the
first row alone, regardless of how many rows match; the plural
findIntersectResponses container is never produced by the server. -/
theorem C6_intersect_response_always_singular (cfg : ServerCfg) (d : DB)
    (now : String) (ra : List (String × String)) (svc : String)
    (geomChild : XmlElem) (g : Geom) (row : QRow) (rest : List QRow)
    (hsrs : attrVal geomChild "srsName" = some SRS_URN)
    (hg : parseGmlGeom geomChild = some g)
    (hq : fiQuery d g (some (pyStrip svc)) = row :: rest) :
    findIntersect cfg d now (fiDoc ra svc geomChild) =
      .ret (.xml (intersectResponse cfg now row)) [] ∧
    (intersectResponse cfg now row).tag =
      qn LOST_NAMESPACE "findIntersectResponse" ∧
    (intersectResponse cfg now row).children = [mappingElem cfg now row] := by
  refine ⟨?_, rfl, rfl⟩
  simp only [findIntersect, childNamed_fiDoc_service, childNamed_fiDoc_interest,
    XmlElem.text, XmlElem.children, List.head?, Option.map, Option.getD,
    hsrs, bne_self_eq_false, Bool.false_eq_true, if_false, hg, hq]

theorem C6_intersect_response_always_singular_witness :
    findIntersect cfgProxy dbTwoRows "EXPIRES"
        (fiDoc [("serviceBoundary", "value"), ("recursive", "true")]
          "urn:service:sos" (gmlRect "-74 40 -73 41")) =
      .ret (.xml (intersectResponse cfgProxy "EXPIRES" qrowFirst)) [] :=
  (C6_intersect_response_always_singular cfgProxy dbTwoRows "EXPIRES"
    [("serviceBoundary", "value"), ("recursive", "true")] "urn:service:sos"
    (gmlRect "-74 40 -73 41")
    (.rect (intDec (-74)) (intDec 40) (intDec (-73)) (intDec 41))
    qrowFirst [qrowSecond] (by decide) (by decide) (by decide)).1

/-- C9 amended: with a valid srsName, findService raises
geometryNotImplemented exactly when the location child is not a GML
Point: Polygon and MultiPolygon are rejected like every other non-Point
geometry (see the counterexample), and a Point never triggers that
error. -/
theorem C9_geometry_error_iff_not_point (cfg : ServerCfg) (d : DB)
    (peer : PeerFun) (now : String) (ra : List (String × String))
    (svc : String) (extra : List XmlElem) (geomChild : XmlElem)
    (hsrs : attrVal geomChild "srsName" = some SRS_URN) :
    (∃ msg, findService cfg d peer now (fsDoc ra svc geomChild extra) =
        .raised "geometryNotImplemented" msg) ↔
      geomChild.tag ≠ qn GML_NAMESPACE "Point" := by
  simp only [findService, childNamed_fsDoc_service, childNamed_fsDoc_location,
    XmlElem.text, XmlElem.children, List.head?, Option.map, Option.getD,
    hsrs, bne_self_eq_false, Bool.false_eq_true, if_false]
  by_cases h : geomChild.tag = qn GML_NAMESPACE "Point"
  · simp only [h, bne_self_eq_false, Bool.false_eq_true, if_false]
    constructor
    · rintro ⟨msg, hmsg⟩
      repeat' split at hmsg
      all_goals exact FsOutcome.noConfusion hmsg
    · intro hc
      exact absurd rfl hc
  · constructor
    · intro _
      exact h
    · intro _
      have hb : (geomChild.tag != qn GML_NAMESPACE "Point") = true := by
        simpa using h
      refine ⟨"Unsupported geometry type " ++ geomChild.tag, ?_⟩
      simp [hb]

theorem C9_geometry_error_iff_not_point_witness :
    (∃ msg, findService cfgRedirect dbS1 peerExn "EXPIRES"
        (fsDoc [("serviceBoundary", "value"), ("recursive", "true")]
          "urn:service:sos" (gmlRect "-74 40 -73 41") []) =
        .raised "geometryNotImplemented" msg) ↔
      (gmlRect "-74 40 -73 41").tag ≠ qn GML_NAMESPACE "Point" :=
  C9_geometry_error_iff_not_point cfgRedirect dbS1 peerExn "EXPIRES"
    [("serviceBoundary", "value"), ("recursive", "true")] "urn:service:sos"
    [] (gmlRect "-74 40 -73 41") rfl

theorem sEquals_coll_self (g : Geom) : sEquals (Geom.coll g) g = true := by
  simp [sEquals, stripColl]

theorem shapeResolve_found (g : Geom) (a : SAttrs) (d : DB) (s : Shape)
    (h : d.shapes.find? (fun s => sEquals s.geom g) = some s) :
    shapeResolve g a d = (d, s.id) := by
  unfold shapeResolve
  rw [h]

theorem shapeResolve_notfound (g : Geom) (a : SAttrs) (d : DB)
    (h : d.shapes.find? (fun s => sEquals s.geom g) = none) :
    shapeResolve g a d =
      ({ d with
          shapes := d.shapes ++
            [⟨d.nextShapeId, a.uri.getD (freshGuid d.guidCtr),
              forceCollection g, a.timestamp, a⟩],
          nextShapeId := d.nextShapeId + 1,
          guidCtr := d.guidCtr + 1 },
       d.nextShapeId) := by
  unfold shapeResolve
  rw [h]

theorem update_db_shapes_ext (g : Geom) (a : SAttrs)
    (um : Option (List (String × String))) (d : DB) :
    ∃ ext, (update_db g a um d).shapes = d.shapes ++ ext := by
  rw [update_db_eq, mapReplace_shapes]
  cases h : d.shapes.find? (fun s => sEquals s.geom g) with
  | some s =>
    rw [shapeResolve_found g a d s h]
    exact ⟨[], (List.append_nil _).symm⟩
  | none =>
    rw [shapeResolve_notfound g a d h]
    exact ⟨_, rfl⟩

theorem load_cons_none (f : GeoJson) (rest : List GeoJson)
    (um : Option (List (String × String))) (d : DB)
    (h : extract_boundary f = none) : load (f :: rest) um d = none := by
  unfold load
  rw [h]

theorem load_cons_some (f : GeoJson) (rest : List GeoJson)
    (um : Option (List (String × String))) (d : DB) (g : Geom) (a : SAttrs)
    (h : extract_boundary f = some (g, a)) :
    load (f :: rest) um d = load rest um (update_db g a um d) := by
  show (match extract_boundary f with
        | none => none
        | some (g, a) => load rest um (update_db g a um d)) =
    load rest um (update_db g a um d)
  rw [h]

theorem mapReplace_none_uri (a : SAttrs)
    (um : Option (List (String × String))) (sid : Nat) (d : DB)
    (h : a.uri = none) : mapReplace a um sid d = d := by
  unfold mapReplace
  rw [h]

theorem update_db_none_uri (g : Geom) (a : SAttrs)
    (um : Option (List (String × String))) (d : DB) (h : a.uri = none) :
    update_db g a um d = (shapeResolve g a d).1 := by
  rw [update_db_eq, mapReplace_none_uri a um _ _ h]

theorem extractAttrs_uri (p : FeatureProps) : (extractAttrs p).uri = none := rfl

theorem findBoundary_uri_none :
    ∀ (fs : List Feature) (g : Geom) (a : SAttrs),
      findBoundary fs = some (g, a) → a.uri = none := by
  intro fs
  induction fs with
  | nil => intro g a h; cases h
  | cons f rest ih =>
    intro g a h
    unfold findBoundary at h
    split at h
    · exact ih g a h
    · split at h
      · simp only [Option.some.injEq, Prod.mk.injEq] at h
        rw [← h.2]
        exact extractAttrs_uri f.props
      · exact ih g a h

theorem extract_boundary_uri_none (obj : GeoJson) (g : Geom) (a : SAttrs)
    (h : extract_boundary obj = some (g, a)) : a.uri = none := by
  unfold extract_boundary at h
  split at h
  · cases h
  · exact findBoundary_uri_none obj.features g a h

theorem update_db_match (g : Geom) (a : SAttrs)
    (um : Option (List (String × String))) (d : DB) :
    ∃ s ∈ (update_db g a um d).shapes, sEquals s.geom g = true := by
  rw [update_db_eq, mapReplace_shapes]
  cases hf : d.shapes.find? (fun s => sEquals s.geom g) with
  | some s =>
    rw [shapeResolve_found g a d s hf]
    have hps := List.find?_some hf
    exact ⟨s, List.mem_of_find?_eq_some hf, by simpa using hps⟩
  | none =>
    rw [shapeResolve_notfound g a d hf]
    refine ⟨_, List.mem_append_right _ (List.mem_singleton.mpr rfl),
      sEquals_coll_self g⟩

theorem update_db_noop (g : Geom) (a : SAttrs)
    (um : Option (List (String × String))) (d : DB) (ha : a.uri = none)
    (hm : ∃ s ∈ d.shapes, sEquals s.geom g = true) :
    update_db g a um d = d := by
  rw [update_db_none_uri g a um d ha]
  cases hf : d.shapes.find? (fun s => sEquals s.geom g) with
  | some s => rw [shapeResolve_found g a d s hf]
  | none =>
    obtain ⟨s, hs, hp⟩ := hm
    exact absurd hp (List.find?_eq_none.mp hf s hs)

theorem load_shapes_grow (um : Option (List (String × String))) :
    ∀ (files : List GeoJson) (d e : DB), load files um d = some e →
      ∃ ext, e.shapes = d.shapes ++ ext := by
  intro files
  induction files with
  | nil =>
    intro d e h
    injection h with h1
    subst h1
    exact ⟨[], (List.append_nil _).symm⟩
  | cons f rest ih =>
    intro d e h
    cases hx : extract_boundary f with
    | none =>
      rw [load_cons_none f rest um d hx] at h
      cases h
    | some ga =>
      obtain ⟨g, a⟩ := ga
      rw [load_cons_some f rest um d g a hx] at h
      obtain ⟨e1, he1⟩ := update_db_shapes_ext g a um d
      obtain ⟨e2, he2⟩ := ih (update_db g a um d) e h
      exact ⟨e1 ++ e2, by rw [he2, he1, List.append_assoc]⟩

theorem load_all_extract (um : Option (List (String × String))) :
    ∀ (files : List GeoJson) (d e : DB), load files um d = some e →
      ∀ f ∈ files, ∃ ga, extract_boundary f = some ga := by
  intro files
  induction files with
  | nil => intro d e h f hf; cases hf
  | cons f0 rest ih =>
    intro d e h f hf
    cases hx : extract_boundary f0 with
    | none =>
      rw [load_cons_none f0 rest um d hx] at h
      cases h
    | some ga0 =>
      obtain ⟨g0, a0⟩ := ga0
      rw [load_cons_some f0 rest um d g0 a0 hx] at h
      rcases List.mem_cons.mp hf with heq | hmem
      · subst heq
        exact ⟨(g0, a0), hx⟩
      · exact ih (update_db g0 a0 um d) e h f hmem

theorem load_establishes (um : Option (List (String × String))) :
    ∀ (files : List GeoJson) (d e : DB), load files um d = some e →
      ∀ f ∈ files, ∀ g a, extract_boundary f = some (g, a) →
        ∃ s ∈ e.shapes, sEquals s.geom g = true := by
  intro files
  induction files with
  | nil => intro d e h f hf; cases hf
  | cons f0 rest ih =>
    intro d e h f hf g a hx
    cases hx0 : extract_boundary f0 with
    | none =>
      rw [load_cons_none f0 rest um d hx0] at h
      cases h
    | some ga0 =>
      obtain ⟨g0, a0⟩ := ga0
      rw [load_cons_some f0 rest um d g0 a0 hx0] at h
      rcases List.mem_cons.mp hf with heq | hmem
      · subst heq
        rw [hx0] at hx
        simp only [Option.some.injEq, Prod.mk.injEq] at hx
        obtain ⟨s, hs, hp⟩ := update_db_match g0 a0 um d
        obtain ⟨ext, hext⟩ := load_shapes_grow um rest (update_db g0 a0 um d) e h
        refine ⟨s, ?_, by rw [← hx.1]; exact hp⟩
        rw [hext]
        exact List.mem_append_left _ hs
      · exact ih (update_db g0 a0 um d) e h f hmem g a hx

theorem load_noop (um : Option (List (String × String))) :
    ∀ (files : List GeoJson) (e : DB),
      (∀ f ∈ files, ∀ g a, extract_boundary f = some (g, a) →
        a.uri = none ∧ ∃ s ∈ e.shapes, sEquals s.geom g = true) →
      (∀ f ∈ files, ∃ ga, extract_boundary f = some ga) →
      load files um e = some e := by
  intro files
  induction files with
  | nil => intro e _ _; rfl
  | cons f rest ih =>
    intro e hprop hex
    obtain ⟨⟨g, a⟩, hx⟩ := hex f (List.mem_cons_self f rest)
    obtain ⟨ha, hm⟩ := hprop f (List.mem_cons_self f rest) g a hx
    rw [load_cons_some f rest um e g a hx, update_db_noop g a um e ha hm]
    exact ih e (fun f2 h2 => hprop f2 (List.mem_cons_of_mem f h2))
      (fun f2 h2 => hex f2 (List.mem_cons_of_mem f h2))

/-- C10: the loader is idempotent.  A completed load run over a fixed
set of GeoJSON files and URL map, started from the state an earlier run
over the same inputs produced, completes and leaves the shape and
mapping tables exactly equal: every file resolves through the
ST_Equals deduplication to an already-present shape, and because
osm.extract_boundary never emits a uri attribute the url-map branch of
update_db (the delete and re-insert of srv lost rows) is unreachable
from load, so the mapping table is untouched by every run. -/
theorem C10_loader_idempotent (files : List GeoJson)
    (um : Option (List (String × String))) (d e : DB)
    (h : load files um d = some e) :
    ∃ e2, load files um e = some e2 ∧
      e2.shapes = e.shapes ∧ e2.mappings = e.mappings := by
  refine ⟨e, ?_, rfl, rfl⟩
  refine load_noop um files e ?_ (load_all_extract um files d e h)
  intro f hf g a hx
  exact ⟨extract_boundary_uri_none f g a hx,
    load_establishes um files d e h f hf g a hx⟩

theorem C10_loader_idempotent_witness :
    ∃ e2, load [gjFile1] urlMap1 dbAfterLoad1 = some e2 ∧
      e2.shapes = dbAfterLoad1.shapes ∧ e2.mappings = dbAfterLoad1.mappings :=
  C10_loader_idempotent [gjFile1] urlMap1 dbEmpty dbAfterLoad1 (by decide)

end LoST
